import Mathlib

/-!
# Verification of the ELAN codec and document model (`elan.py`)

A shallow embedding of the ELAN annotation-file API: the document graph
(time slots, tiers, annotations, linguistic types, controlled vocabularies,
external and lexicon references) and its XML codec (`parse_xml` / `to_xml`).

Conventions of the embedding:
* Python `None`-able fields become `Option`; fallible operations return
  `Except PyError`, where `PyError` mirrors the Python exception classes the
  source raises (`RuntimeError`, `TypeError`, `KeyError`, `AttributeError`,
  `ValueError`).
* Python `dict`s become `PyDict`, an insertion-ordered association list:
  assignment to an existing key replaces its value in place, a new key is
  appended (Python 3.7+ dict semantics).
* The generic XML layer (`xml.dom.minidom`) is the out-of-scope external
  collaborator: the codec is embedded at the element-tree level (`XmlNode`),
  with serializers producing the very `String` the source builds.
* Class-level mutable attributes that the source never re-initializes per
  instance (the `ELANControlledVocabulary` entry list and dictionary) are
  embedded as an explicit shared state value (`CVStore`) threaded through the
  operations that read or write them, which is exactly the Python semantics of
  mutating a class attribute through `self`.
* Non-owning back references (annotation → file, tier → file, entry → cv) are
  embedded by passing the owning object (or its identifier) as a parameter.
-/

namespace Elan

/-- The Python exception kinds raised by `elan.py`: `RuntimeError(msg)`,
`TypeError(msg)`, `KeyError(msg)`, `ValueError` (from `int(...)`), and
`AttributeError` (attribute/method missing, or method call on `None`). -/
inductive PyError where
  | runtime (msg : String)
  | typeError (msg : String)
  | keyError (msg : String)
  | valueError (msg : String)
  | attributeError (msg : String)
deriving DecidableEq, Repr

/-- A Python `dict` with `String` keys: insertion-ordered association list. -/
def PyDict (α : Type) : Type := List (String × α)

instance (α : Type) [DecidableEq α] : DecidableEq (PyDict α) :=
  inferInstanceAs (DecidableEq (List (String × α)))

/-- The empty dict `{}`. -/
def PyDict.empty {α : Type} : PyDict α := []

instance (α : Type) [Repr α] : Repr (PyDict α) :=
  inferInstanceAs (Repr (List (String × α)))

/-- Python `d[k]` lookup returning `none` when the key is absent
(`k in d` is `(d.get? k).isSome`). -/
def PyDict.get? {α : Type} : PyDict α → String → Option α
  | [], _ => none
  | (k, v) :: rest, key => if k = key then some v else PyDict.get? rest key

/-- Python `d[k] = v`: replace in place if the key exists, else append
(Python 3.7+ dicts preserve the original insertion position on update). -/
def PyDict.set {α : Type} : PyDict α → String → α → PyDict α
  | [], key, v => [(key, v)]
  | (k, w) :: rest, key, v =>
    if k = key then (k, v) :: rest else (k, w) :: PyDict.set rest key v

/-- The keys in insertion order (Python `for k in d`). -/
def PyDict.keys {α : Type} (d : PyDict α) : List String := d.map Prod.fst

instance {ε α : Type} [DecidableEq ε] [DecidableEq α] : DecidableEq (Except ε α) :=
  fun a b =>
    match a, b with
    | .ok x, .ok y =>
      if h : x = y then .isTrue (by rw [h]) else .isFalse (by simp [h])
    | .error x, .error y =>
      if h : x = y then .isTrue (by rw [h]) else .isFalse (by simp [h])
    | .ok _, .error _ => .isFalse (fun h => Except.noConfusion h)
    | .error _, .ok _ => .isFalse (fun h => Except.noConfusion h)

/-- One character of `xml.sax.saxutils.escape`. -/
def escapeChar (c : Char) : String :=
  if c = '&' then "&amp;"
  else if c = '>' then "&gt;"
  else if c = '<' then "&lt;"
  else String.singleton c

/-- `xml.sax.saxutils.escape`: the Python implementation replaces `&` by
`&amp;`, then `>` by `&gt;`, then `<` by `&lt;`, in that order. The patterns
are single characters and no replacement introduces a character that a later
pass rewrites (the `&` of `&gt;`/`&lt;` appears only after the `&` pass), so
the chain of replaces equals this per-character map. -/
def escape (s : String) : String := String.join (s.data.map escapeChar)

/-- The element-tree shape `xml.dom.minidom` hands to the codec: element nodes
with a tag, attributes and ordered children, and text nodes. -/
inductive XmlNode where
  | element (tag : String) (attrs : PyDict String) (children : List XmlNode)
  | text (data : String)

mutual

/-- Decidable equality of XML nodes (nested induction, so written by hand). -/
def XmlNode.decEq : (a b : XmlNode) → Decidable (a = b)
  | .text d1, .text d2 =>
    if h : d1 = d2 then .isTrue (by rw [h]) else .isFalse (by simp [h])
  | .element t1 a1 c1, .element t2 a2 c2 =>
    if h1 : t1 = t2 then
      if h2 : a1 = a2 then
        match XmlNode.decEqList c1 c2 with
        | .isTrue h3 => .isTrue (by rw [h1, h2, h3])
        | .isFalse h3 => .isFalse (by simp [h1, h2, h3])
      else .isFalse (by simp [h1, h2])
    else .isFalse (by simp [h1])
  | .text _, .element _ _ _ => .isFalse (by intro h; exact XmlNode.noConfusion h)
  | .element _ _ _, .text _ => .isFalse (by intro h; exact XmlNode.noConfusion h)

/-- Decidable equality of XML node lists. -/
def XmlNode.decEqList : (a b : List XmlNode) → Decidable (a = b)
  | [], [] => .isTrue rfl
  | [], _ :: _ => .isFalse (by simp)
  | _ :: _, [] => .isFalse (by simp)
  | x :: xs, y :: ys =>
    match XmlNode.decEq x y, XmlNode.decEqList xs ys with
    | .isTrue h1, .isTrue h2 => .isTrue (by rw [h1, h2])
    | .isFalse h1, _ => .isFalse (by simp [h1])
    | _, .isFalse h2 => .isFalse (by simp [h2])

end

instance : DecidableEq XmlNode := XmlNode.decEq

/-- `node.nodeType == node.ELEMENT_NODE`. -/
def XmlNode.isElement : XmlNode → Bool
  | .element _ _ _ => true
  | .text _ => false

/-- The walk `child = node.firstChild; while child is not an element and it
has a next sibling: advance`: returns the first element child if any, else the
last child, and `none` when there are no children at all (where the Python
code would crash on `None.nodeType` with an `AttributeError`). -/
def firstElementOrLast : List XmlNode → Option XmlNode
  | [] => none
  | [n] => some n
  | n :: rest => if n.isElement then some n else firstElementOrLast rest

/-- Extraction of an element's text content following the source pattern
`if node.hasChildNodes(): if node.firstChild.nodeType == TEXT_NODE:
value = node.firstChild.data else: value = "" else: value = ""`. -/
def textContentOrEmpty : List XmlNode → String
  | XmlNode.text d :: _ => d
  | _ => ""

/-! ## Time model: `ELANTimeSlot`, `ELANTimeOrder` -/

/-- `ELANTimeSlot`: an identifier plus an optional millisecond value. -/
structure ELANTimeSlot where
  ID : String
  time_value : Option Int
deriving DecidableEq, Repr

/-- `ELANTimeSlot.has_time_value`. -/
def ELANTimeSlot.has_time_value (ts : ELANTimeSlot) : Bool := ts.time_value.isSome

/-- `ELANTimeSlot.get_time_value`: returns the raw field, `None` included. -/
def ELANTimeSlot.get_time_value (ts : ELANTimeSlot) : Option Int := ts.time_value

/-- `ELANTimeSlot.__lt__`: `self.time_value < other.time_value`. In Python an
order comparison with `None` on either side raises `TypeError`. -/
def ELANTimeSlot.lt (a b : ELANTimeSlot) : Except PyError Bool :=
  match a.time_value, b.time_value with
  | some x, some y => .ok (decide (x < y))
  | _, _ => .error (.typeError "unorderable types: NoneType and int")

/-- `ELANTimeSlot.__gt__`: `self.time_value > other.time_value`. -/
def ELANTimeSlot.gt (a b : ELANTimeSlot) : Except PyError Bool :=
  match a.time_value, b.time_value with
  | some x, some y => .ok (decide (y < x))
  | _, _ => .error (.typeError "unorderable types: NoneType and int")

/-- `ELANTimeSlot.__le__`: `self.time_value == other.time_value or
self.time_value < other.time_value`. Equality between `None`s is `True` in
Python and short-circuits the `or`, so two absent values compare `True`
without an error; otherwise a `None` reaches `<` and raises `TypeError`. -/
def ELANTimeSlot.le (a b : ELANTimeSlot) : Except PyError Bool :=
  if a.time_value = b.time_value then .ok true
  else
    match a.time_value, b.time_value with
    | some x, some y => .ok (decide (x < y))
    | _, _ => .error (.typeError "unorderable types: NoneType and int")

/-- `ELANTimeSlot.__ge__`: `self.time_value == other.time_value or
self.time_value > other.time_value`, with the same `None` behavior
as `ELANTimeSlot.le`. -/
def ELANTimeSlot.ge (a b : ELANTimeSlot) : Except PyError Bool :=
  if a.time_value = b.time_value then .ok true
  else
    match a.time_value, b.time_value with
    | some x, some y => .ok (decide (y < x))
    | _, _ => .error (.typeError "unorderable types: NoneType and int")

/-- Python `int(s)` on an attribute string: `ValueError` when not numeric. -/
def pyInt (s : String) : Except PyError Int :=
  match s.toInt? with
  | some n => .ok n
  | none => .error (.valueError s)

/-- `ELANTimeSlot.from_xml`: requires tag `TIME_SLOT` and attribute
`TIME_SLOT_ID`; `TIME_VALUE` is optional and converted with `int(...)`. -/
def ELANTimeSlot.from_xml (node : XmlNode) : Except PyError ELANTimeSlot :=
  match node with
  | .text _ => .error (.attributeError "tagName")
  | .element tag attrs _ =>
    if tag ≠ "TIME_SLOT" then
      .error (.runtime ("Cannot construct an ELANTimeSlot object from xml node of type " ++ tag))
    else
      match attrs.get? "TIME_SLOT_ID" with
      | none => .error (.runtime "TIME_SLOT is missing TIME_SLOT_ID attribute.")
      | some time_slot_id =>
        match attrs.get? "TIME_VALUE" with
        | none => .ok ⟨time_slot_id, none⟩
        | some v => do
          let n ← pyInt v
          .ok ⟨time_slot_id, some n⟩

/-- `ELANTimeSlot.to_xml`. -/
def ELANTimeSlot.to_xml (ts : ELANTimeSlot) (indent : String) : String :=
  indent ++ indent ++ "<TIME_SLOT " ++ "TIME_SLOT_ID=\"" ++ escape ts.ID ++ "\"" ++
    (match ts.time_value with
     | some v => " TIME_VALUE=\"" ++ escape (toString v) ++ "\""
     | none => "") ++ "/>\n"

/-- `ELANTimeOrder`: insertion-ordered time slots plus the dict view.
The `ELAN_file` back reference is non-owning and is not stored. -/
structure ELANTimeOrder where
  time_slots : List ELANTimeSlot
  time_slots_dict : PyDict ELANTimeSlot
deriving DecidableEq, Repr

/-- The empty time order (`ELANTimeOrder.__init__`). -/
def ELANTimeOrder.empty : ELANTimeOrder := ⟨[], PyDict.empty⟩

/-- `ELANTimeOrder.get_time_slot_by_id`: `KeyError` when the ID is absent. -/
def ELANTimeOrder.get_time_slot_by_id (to_ : ELANTimeOrder) (ID : String) :
    Except PyError ELANTimeSlot :=
  match to_.time_slots_dict.get? ID with
  | some ts => .ok ts
  | none => .error (.keyError "No ELANTimeSlot with the given ID found.")

/-- `ELANTimeOrder.add_time_slot`: `KeyError` when the slot's ID is already
present (`time_slot in self` checks the dict view), else append and index. -/
def ELANTimeOrder.add_time_slot (to_ : ELANTimeOrder) (ts : ELANTimeSlot) :
    Except PyError ELANTimeOrder :=
  if (to_.time_slots_dict.get? ts.ID).isSome then
    .error (.keyError "Cannot append time_slot. ID is already in use.")
  else
    .ok ⟨to_.time_slots ++ [ts], to_.time_slots_dict.set ts.ID ts⟩

/-- One child step of `ELANTimeOrder.from_xml`: non-element children are
skipped, element children must be `TIME_SLOT`. -/
def ELANTimeOrder.fromXmlStep (to_ : ELANTimeOrder) (child : XmlNode) :
    Except PyError ELANTimeOrder :=
  match child with
  | .text _ => .ok to_
  | .element ctag cattrs cchildren =>
    if ctag ≠ "TIME_SLOT" then
      .error (.runtime ("Expected TIME_SLOT element in TIME_ORDER but found a " ++ ctag ++ " element."))
    else do
      let ts ← ELANTimeSlot.from_xml (.element ctag cattrs cchildren)
      to_.add_time_slot ts

/-- `ELANTimeOrder.from_xml`. -/
def ELANTimeOrder.from_xml (node : XmlNode) : Except PyError ELANTimeOrder :=
  match node with
  | .text _ => .error (.attributeError "tagName")
  | .element tag _ children =>
    if tag ≠ "TIME_ORDER" then
      .error (.runtime ("Cannot construct an ELANTimeOrder object from xml node of type " ++ tag))
    else
      children.foldlM ELANTimeOrder.fromXmlStep ELANTimeOrder.empty

/-- `ELANTimeOrder.to_xml`. -/
def ELANTimeOrder.to_xml (to_ : ELANTimeOrder) (indent : String) : String :=
  indent ++ "<TIME_ORDER>\n" ++
    String.join (to_.time_slots.map (fun ts => ts.to_xml indent)) ++
    indent ++ "</TIME_ORDER>\n"

/-! ## Value entities: media and linked-file descriptors -/

/-- `ELANMediaDescriptor`. -/
structure ELANMediaDescriptor where
  media_url : String
  mime_type : String
  relative_media_url : Option String
  time_origin : Option String
  extracted_from : Option String
deriving DecidableEq, Repr

/-- `ELANMediaDescriptor.from_xml`: `MEDIA_URL` and `MIME_TYPE` required. -/
def ELANMediaDescriptor.from_xml (node : XmlNode) : Except PyError ELANMediaDescriptor :=
  match node with
  | .text _ => .error (.attributeError "tagName")
  | .element tag attrs _ =>
    if tag ≠ "MEDIA_DESCRIPTOR" then
      .error (.runtime ("Cannot construct an ELANMediaDescriptor object from xml node of type " ++ tag))
    else
      match attrs.get? "MEDIA_URL" with
      | none => .error (.runtime "MEDIA_DESCRIPTOR is missing MEDIA_URL attribute.")
      | some media_url =>
        match attrs.get? "MIME_TYPE" with
        | none => .error (.runtime "MEDIA_DESCRIPTOR is missing MIME_TYPE attribute.")
        | some mime_type =>
          .ok ⟨media_url, mime_type, attrs.get? "RELATIVE_MEDIA_URL",
               attrs.get? "TIME_ORIGIN", attrs.get? "EXTRACTED_FROM"⟩

/-- `ELANMediaDescriptor.to_xml`. -/
def ELANMediaDescriptor.to_xml (md : ELANMediaDescriptor) (indent : String) : String :=
  indent ++ indent ++ "<MEDIA_DESCRIPTOR " ++ "MEDIA_URL=\"" ++ escape md.media_url ++ "\"" ++
    (match md.relative_media_url with
     | some r => " RELATIVE_MEDIA_URL=\"" ++ escape r ++ "\""
     | none => "") ++
    " MIME_TYPE=\"" ++ escape md.mime_type ++ "\"" ++
    (match md.time_origin with
     | some t => " TIME_ORIGIN=\"" ++ escape t ++ "\""
     | none => "") ++
    (match md.extracted_from with
     | some e => " EXTRACTED_FROM=\"" ++ escape e ++ "\""
     | none => "") ++ "/>\n"

/-- `ELANLinkedFileDescriptor`. -/
structure ELANLinkedFileDescriptor where
  link_url : String
  mime_type : String
  relative_link_url : Option String
  time_origin : Option String
  associated_with : Option String
deriving DecidableEq, Repr

/-- `ELANLinkedFileDescriptor.from_xml`: `LINK_URL` and `MIME_TYPE` required. -/
def ELANLinkedFileDescriptor.from_xml (node : XmlNode) :
    Except PyError ELANLinkedFileDescriptor :=
  match node with
  | .text _ => .error (.attributeError "tagName")
  | .element tag attrs _ =>
    if tag ≠ "LINKED_FILE_DESCRIPTOR" then
      .error (.runtime ("Cannot construct an ELANLinkedFileDescriptor object from xml node of type " ++ tag))
    else
      match attrs.get? "LINK_URL" with
      | none => .error (.runtime "LINKED_FILE_DESCRIPTOR is missing LINK_URL attribute.")
      | some link_url =>
        match attrs.get? "MIME_TYPE" with
        | none => .error (.runtime "LINKED_FILE_DESCRIPTOR is missing MIME_TYPE attribute.")
        | some mime_type =>
          .ok ⟨link_url, mime_type, attrs.get? "RELATIVE_LINK_URL",
               attrs.get? "TIME_ORIGIN", attrs.get? "ASSOCIATED_WITH"⟩

/-- `ELANLinkedFileDescriptor.to_xml` calls `self.has_relative_link_url()`
(and later `self.has_associated_with()`), methods the class never defines, so
every call raises `AttributeError` before any text is returned. -/
def ELANLinkedFileDescriptor.to_xml (_lf : ELANLinkedFileDescriptor)
    (_indent : String) : Except PyError String :=
  .error (.attributeError "ELANLinkedFileDescriptor object has no attribute has_relative_link_url")

/-! ## Annotation model -/

/-- The state of an `ELANAlignableAnnotation` object. `external_ref` is the
class-level attribute: `ELANAlignableAnnotation.__init__` receives an
`external_ref` argument but never assigns it to `self`, so instances always
carry the class default `None` unless `set_external_ref` is called later. -/
structure AlignableData where
  annotation_id : String
  annotation_value : String
  start_time_slot : String
  end_time_slot : String
  svg_ref : Option String
  external_ref : Option String
deriving DecidableEq, Repr

/-- `ELANAlignableAnnotation.__init__`: stores all arguments except
`external_ref`, which is dropped (the instance keeps the class default). -/
def ELANAlignableAnnotation.init_ (annotation_id annotation_value : String)
    (start_time_slot end_time_slot : String) (svg_ref : Option String)
    (_external_ref : Option String) : AlignableData :=
  ⟨annotation_id, annotation_value, start_time_slot, end_time_slot, svg_ref, none⟩

/-- The state of an `ELANRefAnnotation` object; its `__init__` does assign
`external_ref`. -/
structure RefData where
  annotation_id : String
  annotation_value : String
  annotation_ref : String
  previous_annotation : Option String
  external_ref : Option String
deriving DecidableEq, Repr

/-- The two annotation variants (`ELANAlignableAnnotation`, `ELANRefAnnotation`). -/
inductive ELANAnnotation where
  | alignable (a : AlignableData)
  | ref (r : RefData)
deriving DecidableEq, Repr

/-- `get_annotation_id` (shared accessor of `ELANAnnotation`). -/
def ELANAnnotation.get_annotation_id : ELANAnnotation → String
  | .alignable a => a.annotation_id
  | .ref r => r.annotation_id

/-- `get_external_ref` (shared accessor of `ELANAnnotation`). -/
def ELANAnnotation.get_external_ref : ELANAnnotation → Option String
  | .alignable a => a.external_ref
  | .ref r => r.external_ref

/-- `has_external_ref` (shared accessor of `ELANAnnotation`). -/
def ELANAnnotation.has_external_ref (a : ELANAnnotation) : Bool :=
  a.get_external_ref.isSome

/-- `ELANAlignableAnnotation.from_xml`: requires `ANNOTATION_ID`,
`TIME_SLOT_REF1`, `TIME_SLOT_REF2`; reads the optional attributes `SVG_REF`
and `EXTERNAL_REF` (the encoder and the EAF grammar use `EXT_REF`, which this
reader never looks at); extracts the value from the `ANNOTATION_VALUE` child;
builds the object through `__init__`, which drops `external_ref`. -/
def ELANAlignableAnnotation.from_xml (node : XmlNode) : Except PyError AlignableData :=
  match node with
  | .text _ => .error (.attributeError "tagName")
  | .element tag attrs children =>
    if tag ≠ "ALIGNABLE_ANNOTATION" then
      .error (.runtime ("Cannot construct an ELANAlignableAnnotation object from xml node of type " ++ tag))
    else
      match attrs.get? "ANNOTATION_ID" with
      | none => .error (.runtime "ALIGNABLE_ANNOTATION is missing ANNOTATION_ID attribute.")
      | some annotation_id =>
        match attrs.get? "TIME_SLOT_REF1" with
        | none => .error (.runtime "ALIGNABLE_ANNOTATION is missing TIME_SLOT_REF1 attribute.")
        | some time_slot_ref1 =>
          match attrs.get? "TIME_SLOT_REF2" with
          | none => .error (.runtime "ALIGNABLE_ANNOTATION is missing TIME_SLOT_REF2 attribute.")
          | some time_slot_ref2 =>
            match firstElementOrLast children with
            | none => .error (.attributeError "NoneType object has no attribute nodeType")
            | some (.text _) => .error (.attributeError "Text object has no attribute tagName")
            | some (.element vtag _ vchildren) =>
              if vtag ≠ "ANNOTATION_VALUE" then
                .error (.runtime ("Expected ANNOTATION_VALUE element in ALIGNABLE_ANNOTATION but found a " ++ vtag ++ " element."))
              else
                .ok ( ELANAlignableAnnotation.init_ annotation_id
                  (textContentOrEmpty vchildren) time_slot_ref1 time_slot_ref2
                  (attrs.get? "SVG_REF") (attrs.get? "EXTERNAL_REF"))

/-- `ELANAlignableAnnotation.to_xml` (note: the encoder emits `EXT_REF`). -/
def AlignableData.to_xml (a : AlignableData) (indent : String) : String :=
  indent ++ indent ++ "<ANNOTATION>\n" ++
  indent ++ indent ++ indent ++ "<ALIGNABLE_ANNOTATION" ++
  " ANNOTATION_ID=\"" ++ escape a.annotation_id ++ "\"" ++
  " TIME_SLOT_REF1=\"" ++ escape a.start_time_slot ++ "\"" ++
  " TIME_SLOT_REF2=\"" ++ escape a.end_time_slot ++ "\"" ++
  (match a.svg_ref with
   | some s => " SVG_REF=\"" ++ escape s ++ "\""
   | none => "") ++
  (match a.external_ref with
   | some e => " EXT_REF=\"" ++ escape e ++ "\""
   | none => "") ++ ">\n" ++
  indent ++ indent ++ indent ++ indent ++
    (if a.annotation_value = "" then "<ANNOTATION_VALUE></ANNOTATION_VALUE>\n"
     else "<ANNOTATION_VALUE>" ++ escape a.annotation_value ++ "</ANNOTATION_VALUE>\n") ++
  indent ++ indent ++ indent ++ "</ALIGNABLE_ANNOTATION>\n" ++
  indent ++ indent ++ "</ANNOTATION>\n"

/-- `ELANRefAnnotation.from_xml`: requires `ANNOTATION_ID` and
`ANNOTATION_REF`; reads optional `PREVIOUS_ANNOTATION` and `EXTERNAL_REF`
(again not the grammar's `EXT_REF`). -/
def ELANRefAnnotation.from_xml (node : XmlNode) : Except PyError RefData :=
  match node with
  | .text _ => .error (.attributeError "tagName")
  | .element tag attrs children =>
    if tag ≠ "REF_ANNOTATION" then
      .error (.runtime ("Cannot construct an ELANRefAnnotation object from xml node of type " ++ tag))
    else
      match attrs.get? "ANNOTATION_ID" with
      | none => .error (.runtime "ALIGNABLE_ANNOTATION is missing ANNOTATION_ID attribute.")
      | some annotation_id =>
        match attrs.get? "ANNOTATION_REF" with
        | none => .error (.runtime "REF_ANNOTATION is missing ANNOTATION_REF attribute.")
        | some annotation_ref =>
          match firstElementOrLast children with
          | none => .error (.attributeError "NoneType object has no attribute nodeType")
          | some (.text _) => .error (.attributeError "Text object has no attribute tagName")
          | some (.element vtag _ vchildren) =>
            if vtag ≠ "ANNOTATION_VALUE" then
              .error (.runtime ("Expected ANNOTATION_VALUE element in REF_ANNOTATION but found a " ++ vtag ++ " element."))
            else
              .ok ⟨annotation_id, textContentOrEmpty vchildren, annotation_ref,
                   attrs.get? "PREVIOUS_ANNOTATION", attrs.get? "EXTERNAL_REF"⟩

/-- `ELANRefAnnotation.to_xml` (the encoder emits `EXT_REF`). -/
def RefData.to_xml (r : RefData) (indent : String) : String :=
  indent ++ indent ++ "<ANNOTATION>\n" ++
  indent ++ indent ++ indent ++ "<REF_ANNOTATION" ++
  " ANNOTATION_ID=\"" ++ escape r.annotation_id ++ "\"" ++
  " ANNOTATION_REF=\"" ++ escape r.annotation_ref ++ "\"" ++
  (match r.previous_annotation with
   | some p => " PREVIOUS_ANNOTATION=\"" ++ escape p ++ "\""
   | none => "") ++
  (match r.external_ref with
   | some e => " EXT_REF=\"" ++ escape e ++ "\""
   | none => "") ++ ">\n" ++
  indent ++ indent ++ indent ++ indent ++
    (if r.annotation_value = "" then "<ANNOTATION_VALUE></ANNOTATION_VALUE>\n"
     else "<ANNOTATION_VALUE>" ++ escape r.annotation_value ++ "</ANNOTATION_VALUE>\n") ++
  indent ++ indent ++ indent ++ "</REF_ANNOTATION>\n" ++
  indent ++ indent ++ "</ANNOTATION>\n"

/-- Dispatching `to_xml` over the annotation variants. -/
def ELANAnnotation.to_xml (a : ELANAnnotation) (indent : String) : String :=
  match a with
  | .alignable al => al.to_xml indent
  | .ref r => r.to_xml indent

/-! ## Tier model -/

/-- `ELANTier`. `annotations_dict` is created empty by `__init__` and is read
by `__contains__`, but `add_annotation` never writes to it. -/
structure ELANTier where
  tier_id : String
  participant : Option String
  annotator : Option String
  linguistic_type : String
  default_locale : Option String
  parent_tier_ref : Option String
  annotations : List ELANAnnotation
  annotations_dict : PyDict ELANAnnotation
deriving DecidableEq, Repr

/-- `ELANTier.add_annotation`: unconditionally appends to the annotation
list; no identifier check and no dictionary update. -/
def ELANTier.add_annotation (t : ELANTier) (a : ELANAnnotation) : ELANTier :=
  { t with annotations := t.annotations ++ [a] }

/-- One `ANNOTATION` child step of `ELANTier.from_xml`: non-element children
are skipped; an element child must be tagged `ANNOTATION` and its first
element grandchild must be an `ALIGNABLE_ANNOTATION` or `REF_ANNOTATION`
(the mismatch message prints the `ANNOTATION` tag, as the source does). -/
def ELANTier.fromXmlStep (t : ELANTier) (child : XmlNode) : Except PyError ELANTier :=
  match child with
  | .text _ => .ok t
  | .element ctag _ cchildren =>
    if ctag ≠ "ANNOTATION" then
      .error (.runtime ("Expected ANNOTATION element in TIER but found a " ++ ctag ++ " element."))
    else
      match firstElementOrLast cchildren with
      | none => .error (.attributeError "NoneType object has no attribute nodeType")
      | some (.text _) => .error (.attributeError "Text object has no attribute tagName")
      | some (.element gtag gattrs gchildren) =>
        if gtag = "ALIGNABLE_ANNOTATION" then do
          let a ← ELANAlignableAnnotation.from_xml (.element gtag gattrs gchildren)
          .ok (t.add_annotation (.alignable a))
        else if gtag = "REF_ANNOTATION" then do
          let r ← ELANRefAnnotation.from_xml (.element gtag gattrs gchildren)
          .ok (t.add_annotation (.ref r))
        else
          .error (.runtime ("Expected ALIGNABLE_ANNOTATION or REF_ANNOTATION element in ANNOTATION but found a " ++ ctag ++ " element."))

/-- `ELANTier.from_xml`: requires `TIER_ID` and `LINGUISTIC_TYPE_REF`; reads
the optional tier attributes; then folds over the `ANNOTATION` children. -/
def ELANTier.from_xml (node : XmlNode) : Except PyError ELANTier :=
  match node with
  | .text _ => .error (.attributeError "tagName")
  | .element tag attrs children =>
    if tag ≠ "TIER" then
      .error (.runtime ("Cannot construct an ELANTier object from xml node of type " ++ tag))
    else
      match attrs.get? "TIER_ID" with
      | none => .error (.runtime "TIER is missing TIER_ID attribute.")
      | some tier_id =>
        match attrs.get? "LINGUISTIC_TYPE_REF" with
        | none => .error (.runtime "TIER is missing LINGUISTIC_TYPE_REF attribute.")
        | some linguistic_type_ref =>
          children.foldlM ELANTier.fromXmlStep
            ⟨tier_id, attrs.get? "PARTICIPANT", attrs.get? "ANNOTATOR",
             linguistic_type_ref, attrs.get? "DEFAULT_LOCALE",
             attrs.get? "PARENT_REF", [], PyDict.empty⟩

/-- `ELANTier.to_xml`. -/
def ELANTier.to_xml (t : ELANTier) (indent : String) : String :=
  indent ++ "<TIER" ++ " TIER_ID=\"" ++ escape t.tier_id ++ "\"" ++
  (match t.participant with
   | some p => " PARTICIPANT=\"" ++ escape p ++ "\""
   | none => "") ++
  (match t.annotator with
   | some a => " ANNOTATOR=\"" ++ escape a ++ "\""
   | none => "") ++
  " LINGUISTIC_TYPE_REF=\"" ++ escape t.linguistic_type ++ "\"" ++
  (match t.default_locale with
   | some d => " DEFAULT_LOCALE=\"" ++ escape d ++ "\""
   | none => "") ++
  (match t.parent_tier_ref with
   | some p => " PARENT_REF=\"" ++ escape p ++ "\""
   | none => "") ++ ">\n" ++
  String.join (t.annotations.map (fun a => a.to_xml indent)) ++
  indent ++ "</TIER>\n"

/-! ## Linguistic types and constraints -/

/-- `ELANLinguisticType`. `time_alignable` holds the derived alignability
flag; `graphic_references` stores the raw attribute string. -/
structure ELANLinguisticType where
  linguistic_type_id : String
  time_alignable : Option Bool
  constraints : Option String
  graphic_references : Option String
  controlled_vocabulary_ref : Option String
  external_ref : Option String
  lexicon_ref : Option String
deriving DecidableEq, Repr

/-- `ELANLinguisticType.__init__`: with no constraint the `TIME_ALIGNABLE`
attribute string must be `"true"` or `"false"` (anything else, absence
included, raises); with a constraint the flag is derived from the stereotype
table, the literal string `"None"` counting as no constraint; an unknown
stereotype raises. -/
def ELANLinguisticType.init_ (ID : String)
    (time_alignable constraints graphic_ref cv_ref external_ref lexicon_ref :
      Option String) : Except PyError ELANLinguisticType :=
  match constraints with
  | none =>
    match time_alignable with
    | some "true" => .ok ⟨ID, some true, constraints, graphic_ref, cv_ref, external_ref, lexicon_ref⟩
    | some "false" => .ok ⟨ID, some false, constraints, graphic_ref, cv_ref, external_ref, lexicon_ref⟩
    | _ => .error (.runtime "Illegal value of attribute TIME_ALIGNABLE in LINGUISTIC_TYPE element.")
  | some c =>
    if c = "None" ∨ c = "Time_Subdivision" ∨ c = "Included_In" then
      .ok ⟨ID, some true, constraints, graphic_ref, cv_ref, external_ref, lexicon_ref⟩
    else if c = "Symbolic_Subdivision" ∨ c = "Symbolic_Association" then
      .ok ⟨ID, some false, constraints, graphic_ref, cv_ref, external_ref, lexicon_ref⟩
    else
      .error (.runtime ("Unknown constraint: " ++ c))

/-- `ELANLinguisticType.set_time_alignable`, verbatim from the source:
`True` raises unless the constraint is `None`, `"Time_Subdivison"` (sic, the
source compares against this misspelling, so the real `Time_Subdivision`
stereotype is rejected) or `"Included_In"`; `False` raises when the
constraint is `None`, `"Symbolic_Subdivision"` or `"Symbolic_Association"`;
otherwise the flag is assigned. -/
def ELANLinguisticType.set_time_alignable (lt : ELANLinguisticType) (b : Bool) :
    Except PyError ELANLinguisticType :=
  if b then
    match lt.constraints with
    | some c =>
      if c ≠ "Time_Subdivison" ∧ c ≠ "Included_In" then
        .error (.runtime ("Constraint " ++ c ++ " is not time alignable."))
      else .ok { lt with time_alignable := some true }
    | none => .ok { lt with time_alignable := some true }
  else
    match lt.constraints with
    | none => .error (.runtime "Constraint None is time alignable.")
    | some c =>
      if c = "Symbolic_Subdivision" ∨ c = "Symbolic_Association" then
        .error (.runtime ("Constraint " ++ c ++ " is time alignable."))
      else .ok { lt with time_alignable := some false }

/-- `ELANLinguisticType.is_time_alignable`: `self.time_alignable is True`. -/
def ELANLinguisticType.is_time_alignable (lt : ELANLinguisticType) : Bool :=
  lt.time_alignable = some true

/-- `ELANLinguisticType.from_xml`: `LINGUISTIC_TYPE_ID` required, all other
attributes optional, then `__init__` derives the alignability flag. -/
def ELANLinguisticType.from_xml (node : XmlNode) : Except PyError ELANLinguisticType :=
  match node with
  | .text _ => .error (.attributeError "tagName")
  | .element tag attrs _ =>
    if tag ≠ "LINGUISTIC_TYPE" then
      .error (.runtime ("Cannot construct an ELANLinguisticType object from xml node of type " ++ tag))
    else
      match attrs.get? "LINGUISTIC_TYPE_ID" with
      | none => .error (.runtime "LINGUISTIC_TYPE is missing LINGUISTIC_TYPE_ID attribute.")
      | some id_ =>
        ELANLinguisticType.init_ id_ (attrs.get? "TIME_ALIGNABLE")
          (attrs.get? "CONSTRAINTS") (attrs.get? "GRAPHIC_REFERENCES")
          (attrs.get? "CONTROLLED_VOCABULARY_REF") (attrs.get? "EXT_REF")
          (attrs.get? "LEXICON_REF")

/-- `ELANLinguisticType.to_xml`. `has_graphic_references` tests
`self.graphic_references is True`, which is false for the attribute string the
parser stores, so a present `GRAPHIC_REFERENCES` is re-emitted as `"false"`. -/
def ELANLinguisticType.to_xml (lt : ELANLinguisticType) (indent : String) : String :=
  indent ++ "<LINGUISTIC_TYPE" ++
  " LINGUISTIC_TYPE_ID=\"" ++ escape lt.linguistic_type_id ++ "\"" ++
  (match lt.time_alignable with
   | some b => if b then " TIME_ALIGNABLE=\"true\"" else " TIME_ALIGNABLE=\"false\""
   | none => "") ++
  (match lt.constraints with
   | some c => " CONSTRAINTS=\"" ++ escape c ++ "\""
   | none => "") ++
  (match lt.graphic_references with
   | some _ => " GRAPHIC_REFERENCES=\"false\""
   | none => "") ++
  (match lt.controlled_vocabulary_ref with
   | some c => " CONTROLLED_VOCABULARY_REF=\"" ++ escape c ++ "\""
   | none => "") ++
  (match lt.external_ref with
   | some e => " EXT_REF=\"" ++ escape e ++ "\""
   | none => "") ++
  (match lt.lexicon_ref with
   | some l => " LEXICON_REF=\"" ++ escape l ++ "\""
   | none => "") ++ "/>\n"

/-- `ELANConstraint`. -/
structure ELANConstraint where
  stereotype : String
  description : Option String
deriving DecidableEq, Repr

/-- `ELANConstraint.is_time_alignable`: the §3 stereotype table; the Python
method falls off the end (returns `None`) for an unknown stereotype. -/
def ELANConstraint.is_time_alignable (c : ELANConstraint) : Option Bool :=
  if c.stereotype = "Time_Subdivision" then some true
  else if c.stereotype = "Symbolic_Subdivision" then some false
  else if c.stereotype = "Symbolic_Association" then some false
  else if c.stereotype = "Included_In" then some true
  else none

/-- `ELANConstraint.from_xml`: `STEREOTYPE` required, `DESCRIPTION` optional. -/
def ELANConstraint.from_xml (node : XmlNode) : Except PyError ELANConstraint :=
  match node with
  | .text _ => .error (.attributeError "tagName")
  | .element tag attrs _ =>
    if tag ≠ "CONSTRAINT" then
      .error (.runtime ("Cannot construct an ELANConstraint object from xml node of type " ++ tag))
    else
      match attrs.get? "STEREOTYPE" with
      | none => .error (.runtime "CONSTRAINT is missing STEREOTYPE attribute.")
      | some stereotype => .ok ⟨stereotype, attrs.get? "DESCRIPTION"⟩

/-- `ELANConstraint.to_xml`. -/
def ELANConstraint.to_xml (c : ELANConstraint) (indent : String) : String :=
  indent ++ "<CONSTRAINT" ++ " STEREOTYPE=\"" ++ escape c.stereotype ++ "\"" ++
  (match c.description with
   | some d => " DESCRIPTION=\"" ++ escape d ++ "\""
   | none => "") ++ "/>\n"

/-! ## Controlled vocabularies

The source declares `cv_entries = []` and `cv_entries_dict = {}` as class
attributes of `ELANControlledVocabulary` and its `__init__` never
re-initializes them, so every instance reads and mutates the same class-level
storage.  That shared storage is embedded as an explicit `CVStore` value
threaded through every operation that touches `self.cv_entries` or
`self.cv_entries_dict`. -/

/-- `ELANControlledVocabularyEntry`; the `cv_ref` back reference is embedded
as the owning vocabulary's identifier. -/
structure ELANControlledVocabularyEntry where
  value : String
  cv_ref : String
  description : Option String
  ext_ref : Option String
deriving DecidableEq, Repr

/-- `ELANControlledVocabularyEntry.from_xml`: value is the text content,
`DESCRIPTION` and `EXT_REF` optional. -/
def ELANControlledVocabularyEntry.from_xml (node : XmlNode) (cv_id : String) :
    Except PyError ELANControlledVocabularyEntry :=
  match node with
  | .text _ => .error (.attributeError "tagName")
  | .element tag attrs children =>
    if tag ≠ "CV_ENTRY" then
      .error (.runtime ("Cannot construct an ELANControlledVocabularyEntry object from xml node of type " ++ tag))
    else
      .ok ⟨textContentOrEmpty children, cv_id, attrs.get? "DESCRIPTION",
           attrs.get? "EXT_REF"⟩

/-- `ELANControlledVocabularyEntry.to_xml`. -/
def ELANControlledVocabularyEntry.to_xml (e : ELANControlledVocabularyEntry)
    (indent : String) : String :=
  indent ++ indent ++ "<CV_ENTRY" ++
  (match e.description with
   | some d => " DESCRIPTION=\"" ++ escape d ++ "\""
   | none => "") ++
  (match e.ext_ref with
   | some x => " EXT_REF=\"" ++ escape x ++ "\""
   | none => "") ++ ">" ++ escape e.value ++ "</CV_ENTRY>\n"

/-- The class-level entry storage of `ELANControlledVocabulary`: the ordered
entry list and its dict view, shared by every instance. -/
structure CVStore where
  cv_entries : List ELANControlledVocabularyEntry
  cv_entries_dict : PyDict ELANControlledVocabularyEntry
deriving DecidableEq, Repr

/-- The storage as it stands when the class is first defined: empty. -/
def CVStore.empty : CVStore := ⟨[], PyDict.empty⟩

/-- The per-instance state of an `ELANControlledVocabulary`
(`__init__` assigns only these three attributes). -/
structure ELANControlledVocabulary where
  cv_id : String
  description : Option String
  ext_ref : Option String
deriving DecidableEq, Repr

/-- `ELANControlledVocabulary.add_cv_entry` acting on the shared storage: a
vocabulary with an external reference raises; otherwise an entry whose value
is already indexed is silently skipped ("Only add new, non-redundant
entries"), and a fresh value is appended and indexed. -/
def ELANControlledVocabulary.add_cv_entry (cv : ELANControlledVocabulary)
    (e : ELANControlledVocabularyEntry) (store : CVStore) : Except PyError CVStore :=
  match cv.ext_ref with
  | none =>
    if (store.cv_entries_dict.get? e.value).isSome then .ok store
    else .ok ⟨store.cv_entries ++ [e], store.cv_entries_dict.set e.value e⟩
  | some _ =>
    .error (.runtime "Cannot add entries to a controlled vocabulary pointing to an external reference.")

/-- `ELANControlledVocabulary.get_cv_entry_by_value` reads the shared dict
view (`self.cv_entries_dict`); the instance itself is not consulted. -/
def ELANControlledVocabulary.get_cv_entry_by_value
    (_cv : ELANControlledVocabulary) (store : CVStore) (value : String) :
    Option ELANControlledVocabularyEntry :=
  store.cv_entries_dict.get? value

/-- `ELANControlledVocabulary.__len__` reads the shared entry list. -/
def ELANControlledVocabulary.entry_count (_cv : ELANControlledVocabulary)
    (store : CVStore) : Nat :=
  store.cv_entries.length

/-- One `CV_ENTRY` child step of `ELANControlledVocabulary.from_xml`: text
children are ignored, any other element raises (the message prints the outer
`CONTROLLED_VOCABULARY` tag, as the source does). -/
def ELANControlledVocabulary.fromXmlStep (cv : ELANControlledVocabulary)
    (acc : CVStore) (child : XmlNode) : Except PyError CVStore :=
  match child with
  | .text _ => .ok acc
  | .element ctag cattrs cchildren =>
    if ctag ≠ "CV_ENTRY" then
      .error (.runtime "Cannot construct an ELANControlledVocabularyEntry object from xml node of type CONTROLLED_VOCABULARY")
    else do
      let e ← ELANControlledVocabularyEntry.from_xml (.element ctag cattrs cchildren) cv.cv_id
      cv.add_cv_entry e acc

/-- `ELANControlledVocabulary.from_xml`: `CV_ID` required; nested `CV_ENTRY`
children are added through `add_cv_entry` and therefore land in the shared
class-level storage. -/
def ELANControlledVocabulary.from_xml (node : XmlNode) (store : CVStore) :
    Except PyError (ELANControlledVocabulary × CVStore) :=
  match node with
  | .text _ => .error (.attributeError "tagName")
  | .element tag attrs children =>
    if tag ≠ "CONTROLLED_VOCABULARY" then
      .error (.runtime ("Cannot construct an ELANControlledVocabulary object from xml node of type " ++ tag))
    else
      match attrs.get? "CV_ID" with
      | none => .error (.runtime "CONTROLLED_VOCABULARY is missing CV_ID attribute.")
      | some cv_id => do
        let cv : ELANControlledVocabulary :=
          ⟨cv_id, attrs.get? "DESCRIPTION", attrs.get? "EXT_REF"⟩
        let store' ← children.foldlM (ELANControlledVocabulary.fromXmlStep cv) store
        .ok (cv, store')

/-- `ELANControlledVocabulary.to_xml`: `for cv_entry in self` iterates the
shared class-level entry list. -/
def ELANControlledVocabulary.to_xml (cv : ELANControlledVocabulary)
    (store : CVStore) (indent : String) : String :=
  indent ++ "<CONTROLLED_VOCABULARY" ++ " CV_ID=\"" ++ escape cv.cv_id ++ "\"" ++
  (match cv.description with
   | some d => " DESCRIPTION=\"" ++ escape d ++ "\""
   | none => "") ++
  (match cv.ext_ref with
   | some x => " EXT_REF=\"" ++ escape x ++ "\""
   | none => "") ++ ">\n" ++
  String.join (store.cv_entries.map (fun e => e.to_xml indent)) ++
  indent ++ "</CONTROLLED_VOCABULARY>\n"

/-! ## External references, locales, lexicon references -/

/-- `ELANExternalReference`. -/
structure ELANExternalReference where
  ext_ref_id : String
  ext_ref_type : String
  value : String
deriving DecidableEq, Repr

/-- `ELANExternalReference.__init__`: rejects a type outside the closed
enumeration. -/
def ELANExternalReference.init_ (ext_ref_id ext_ref_type value : String) :
    Except PyError ELANExternalReference :=
  if ext_ref_type = "iso12620" ∨ ext_ref_type = "ecv" ∨ ext_ref_type = "cve_id" ∨
      ext_ref_type = "lexen_id" ∨ ext_ref_type = "resource_url" then
    .ok ⟨ext_ref_id, ext_ref_type, value⟩
  else
    .error (.runtime ("Unknown type of external reference: " ++ ext_ref_type))

/-- `ELANExternalReference.from_xml`: `EXT_REF_ID` and `TYPE` required, text
content required and non-empty. -/
def ELANExternalReference.from_xml (node : XmlNode) :
    Except PyError ELANExternalReference :=
  match node with
  | .text _ => .error (.attributeError "tagName")
  | .element tag attrs children =>
    if tag ≠ "EXTERNAL_REF" then
      .error (.runtime ("Cannot construct an ELANExternalReference object from xml node of type " ++ tag))
    else
      match attrs.get? "EXT_REF_ID" with
      | none => .error (.runtime "EXTERNAL_REF is missing EXT_REF_ID attribute.")
      | some id_ =>
        match attrs.get? "TYPE" with
        | none => .error (.runtime "EXTERNAL_REF is missing TYPE attribute.")
        | some type_ =>
          match children with
          | XmlNode.text d :: _ => ELANExternalReference.init_ id_ type_ d
          | _ => .error (.runtime "EXTERNAL_REF is empty.")

/-- `ELANExternalReference.to_xml`. -/
def ELANExternalReference.to_xml (er : ELANExternalReference) (indent : String) : String :=
  indent ++ "<EXTERNAL_REF" ++ " EXT_REF_ID=\"" ++ escape er.ext_ref_id ++ "\"" ++
  " TYPE=\"" ++ escape er.ext_ref_type ++ "\"" ++ ">\n" ++
  escape er.value ++ "</EXTERNAL_REF>\n"

/-- `ELANLocale`. -/
structure ELANLocale where
  language_code : String
  country_code : Option String
  variant : Option String
deriving DecidableEq, Repr

/-- `ELANLocale.from_xml`: `LANGUAGE_CODE` required. -/
def ELANLocale.from_xml (node : XmlNode) : Except PyError ELANLocale :=
  match node with
  | .text _ => .error (.attributeError "tagName")
  | .element tag attrs _ =>
    if tag ≠ "LOCALE" then
      .error (.runtime ("Cannot construct an ELANLocale object from xml node of type " ++ tag))
    else
      match attrs.get? "LANGUAGE_CODE" with
      | none => .error (.runtime "LOCALE is missing LANGUAGE_CODE attribute.")
      | some language_code =>
        .ok ⟨language_code, attrs.get? "COUNTRY_CODE", attrs.get? "VARIANT"⟩

/-- `ELANLocale.to_xml`. -/
def ELANLocale.to_xml (l : ELANLocale) (indent : String) : String :=
  indent ++ "<LOCALE" ++ " LANGUAGE_CODE=\"" ++ escape l.language_code ++ "\"" ++
  (match l.country_code with
   | some c => " COUNTRY_CODE=\"" ++ escape c ++ "\""
   | none => "") ++
  (match l.variant with
   | some v => " VARIANT=\"" ++ escape v ++ "\""
   | none => "") ++ "/>\n"

/-- `ELANLexiconReference`. -/
structure ELANLexiconReference where
  lex_ref_id : String
  lex_ref_name : String
  lex_ref_type : String
  url : String
  lexicon_id : String
  lexicon_name : String
  datcat_id : Option String
  datcat_name : Option String
deriving DecidableEq, Repr

/-- `ELANLexiconReference.from_xml`: six required attributes; the value of
`LEXICON_NAME` is fetched as `getAttribute("LEXINCON_NAME")` (sic), and
`getAttribute` of an absent name returns the empty string in minidom. -/
def ELANLexiconReference.from_xml (node : XmlNode) :
    Except PyError ELANLexiconReference :=
  match node with
  | .text _ => .error (.attributeError "tagName")
  | .element tag attrs _ =>
    if tag ≠ "LEXICON_REF" then
      .error (.runtime ("Cannot construct an ELANLexiconReference object from xml node of type " ++ tag))
    else
      match attrs.get? "LEX_REF_ID" with
      | none => .error (.runtime "LEXICON_REF is missing LEX_REF_ID attribute.")
      | some id_ =>
        match attrs.get? "NAME" with
        | none => .error (.runtime "LEXICON_REF is missing NAME attribute.")
        | some name =>
          match attrs.get? "TYPE" with
          | none => .error (.runtime "LEXICON_REF is missing TYPE attribute.")
          | some type_ =>
            match attrs.get? "URL" with
            | none => .error (.runtime "LEXICON_REF is missing URL attribute.")
            | some url =>
              match attrs.get? "LEXICON_ID" with
              | none => .error (.runtime "LEXICON_REF is missing LEXICON_ID attribute.")
              | some lexicon_id =>
                if (attrs.get? "LEXICON_NAME").isSome then
                  .ok ⟨id_, name, type_, url, lexicon_id,
                       (attrs.get? "LEXINCON_NAME").getD "",
                       attrs.get? "DATCAT_ID", attrs.get? "DATCAT_NAME"⟩
                else
                  .error (.runtime "LEXICON_REF is missing LEXICON_NAME attribute.")

/-- `ELANLexiconReference.to_xml` (note: emits the ID under the attribute
name `LEXICON_REF_ID`, not the grammar's `LEX_REF_ID`). -/
def ELANLexiconReference.to_xml (lr : ELANLexiconReference) (indent : String) : String :=
  indent ++ "<LEXICON_REF" ++ " LEXICON_REF_ID=\"" ++ escape lr.lex_ref_id ++ "\"" ++
  " NAME=\"" ++ escape lr.lex_ref_name ++ "\"" ++
  " TYPE=\"" ++ escape lr.lex_ref_type ++ "\"" ++
  " URL=\"" ++ escape lr.url ++ "\"" ++
  " LEXICON_ID=\"" ++ escape lr.lexicon_id ++ "\"" ++
  " LEXICON_NAME=\"" ++ escape lr.lexicon_name ++ "\"" ++
  (match lr.datcat_id with
   | some d => " DATCAT_ID=\"" ++ escape d ++ "\""
   | none => "") ++
  (match lr.datcat_name with
   | some d => " DATCAT_NAME=\"" ++ escape d ++ "\""
   | none => "") ++ "/>\n"

/-! ## The document root: `ELANFile` -/

/-- `ELANFile`: the root aggregate. `media_file` is the deprecated header
attribute (which, through a source slip, also receives the `TIME_UNITS`
attribute value during parsing). The parsed input tree handle (`xml_tree`) is
raw I/O bookkeeping and is not carried. -/
structure ELANFile where
  url : Option String
  author : Option String
  date : Option String
  format : Option String
  version : Option String
  media_file : Option String
  time_units : Option String
  media_files : List ELANMediaDescriptor
  linked_files : List ELANLinkedFileDescriptor
  properties : PyDict String
  time_order : Option ELANTimeOrder
  tiers : List ELANTier
  linguistic_types : List ELANLinguisticType
  constraints : List ELANConstraint
  controlled_vocabularies : List ELANControlledVocabulary
  locales : List ELANLocale
  lexicon_references : List ELANLexiconReference
  external_references : List ELANExternalReference
  media_files_dict : PyDict ELANMediaDescriptor
  linked_files_dict : PyDict ELANLinkedFileDescriptor
  time_slots_dict : PyDict ELANTimeSlot
  tiers_dict : PyDict ELANTier
  annotations_dict : PyDict ELANAnnotation
  linguistic_types_dict : PyDict ELANLinguisticType
  constraints_dict : PyDict ELANConstraint
  controlled_vocabularies_dict : PyDict ELANControlledVocabulary
  external_references_dict : PyDict ELANExternalReference
  lexicon_references_dict : PyDict ELANLexiconReference
deriving DecidableEq, Repr

/-- The field state `parse_xml` starts from: everything reset to `None` or
empty (the re-initialization block at the top of `parse_xml`). -/
def ELANFile.empty : ELANFile where
  url := none
  author := none
  date := none
  format := none
  version := none
  media_file := none
  time_units := none
  media_files := []
  linked_files := []
  properties := PyDict.empty
  time_order := none
  tiers := []
  linguistic_types := []
  constraints := []
  controlled_vocabularies := []
  locales := []
  lexicon_references := []
  external_references := []
  media_files_dict := PyDict.empty
  linked_files_dict := PyDict.empty
  time_slots_dict := PyDict.empty
  tiers_dict := PyDict.empty
  annotations_dict := PyDict.empty
  linguistic_types_dict := PyDict.empty
  constraints_dict := PyDict.empty
  controlled_vocabularies_dict := PyDict.empty
  external_references_dict := PyDict.empty
  lexicon_references_dict := PyDict.empty

/-- `ELANFile.get_annotation_by_id`: `KeyError` for an unknown ID. -/
def ELANFile.get_annotation_by_id (f : ELANFile) (annotation_id : String) :
    Except PyError ELANAnnotation :=
  match f.annotations_dict.get? annotation_id with
  | some a => .ok a
  | none => .error (.keyError ("Unknown annotation ID: " ++ annotation_id))

/-- `ELANFile.add_tier`: appends the tier, indexes it by its ID, and writes
every annotation of the tier into the flat annotation index by plain dict
assignment — an already-present annotation ID is silently overwritten, and no
error is ever raised. -/
def ELANFile.add_tier (f : ELANFile) (t : ELANTier) : ELANFile :=
  { f with
    tiers := f.tiers ++ [t]
    tiers_dict := f.tiers_dict.set t.tier_id t
    annotations_dict :=
      t.annotations.foldl (fun d a => d.set a.get_annotation_id a) f.annotations_dict }

/-- `ELANAlignableAnnotation.get_start_time`: resolves the start time-slot
identifier through the owning file's `time_order` at each call (`KeyError`
when absent, `AttributeError` when the file has no time order), then returns
`get_time_value()` — which is the raw value, `None` included. -/
def ELANAlignableAnnotation.get_start_time (a : AlignableData) (f : ELANFile) :
    Except PyError (Option Int) :=
  match f.time_order with
  | none => .error (.attributeError "NoneType object has no attribute get_time_slot_by_id")
  | some to_ => do
    let ts ← to_.get_time_slot_by_id a.start_time_slot
    .ok ts.get_time_value

/-- `ELANAlignableAnnotation.get_end_time`: same resolution for the end slot. -/
def ELANAlignableAnnotation.get_end_time (a : AlignableData) (f : ELANFile) :
    Except PyError (Option Int) :=
  match f.time_order with
  | none => .error (.attributeError "NoneType object has no attribute get_time_slot_by_id")
  | some to_ => do
    let ts ← to_.get_time_slot_by_id a.end_time_slot
    .ok ts.get_time_value

/-- One header-child step of `parse_xml`: `MEDIA_DESCRIPTOR`,
`LINKED_FILE_DESCRIPTOR` and `PROPERTY` entries are decoded and registered;
anything else raises `Unknown ELAN header entry`. -/
def ELANFile.parseHeaderChild (f : ELANFile) (child : XmlNode) :
    Except PyError ELANFile :=
  match child with
  | .text _ => .ok f
  | .element ctag cattrs cchildren =>
    if ctag = "MEDIA_DESCRIPTOR" then do
      let md ← ELANMediaDescriptor.from_xml (.element ctag cattrs cchildren)
      .ok { f with media_files := f.media_files ++ [md]
                   media_files_dict := f.media_files_dict.set md.media_url md }
    else if ctag = "LINKED_FILE_DESCRIPTOR" then do
      let lf ← ELANLinkedFileDescriptor.from_xml (.element ctag cattrs cchildren)
      .ok { f with linked_files := f.linked_files ++ [lf]
                   linked_files_dict := f.linked_files_dict.set lf.link_url lf }
    else if ctag = "PROPERTY" then
      match cattrs.get? "NAME" with
      | none => .error (.runtime "PROPERTY element is missing NAME attribute.")
      | some name =>
        match cchildren with
        | XmlNode.text d :: _ =>
          .ok { f with properties := f.properties.set name d }
        | _ => .error (.runtime "PROPERTY is empty.")
    else
      .error (.runtime ("Unknown ELAN header entry: " ++ ctag))

/-- The `HEADER` branch of `parse_xml`. The deprecated `MEDIA_FILE` attribute
is stored in `media_file`; a present `TIME_UNITS` attribute is **also**
assigned to `media_file` (`elan_file.media_file = ...` in the source), so
`time_units` is only ever set — to the default `"milliseconds"` — when the
attribute is absent. -/
def ELANFile.parseHeader (f : ELANFile) (attrs : PyDict String)
    (children : List XmlNode) : Except PyError ELANFile :=
  let f1 := match attrs.get? "MEDIA_FILE" with
    | some v => { f with media_file := some v }
    | none => f
  let f2 := match attrs.get? "TIME_UNITS" with
    | some v => { f1 with media_file := some v }
    | none => { f1 with time_units := some "milliseconds" }
  children.foldlM ELANFile.parseHeaderChild f2

/-- One document-child step of `parse_xml`, dispatching on the tag; the
`CONTROLLED_VOCABULARY` branch threads the shared class-level entry storage.
Registering a `TIER` writes each of its annotations into the flat annotation
index by plain dict assignment, silently overwriting duplicates. -/
def ELANFile.parseDocChild (p : ELANFile × CVStore) (child : XmlNode) :
    Except PyError (ELANFile × CVStore) :=
  let f := p.1
  let store := p.2
  match child with
  | .text _ => .ok p
  | .element ctag cattrs cchildren =>
    if ctag = "HEADER" then do
      let f' ← f.parseHeader cattrs cchildren
      .ok (f', store)
    else if ctag = "TIME_ORDER" then do
      let to_ ← ELANTimeOrder.from_xml (.element ctag cattrs cchildren)
      .ok ({ f with time_order := some to_
                    time_slots_dict :=
                      to_.time_slots.foldl (fun d ts => d.set ts.ID ts) f.time_slots_dict },
           store)
    else if ctag = "TIER" then do
      let t ← ELANTier.from_xml (.element ctag cattrs cchildren)
      .ok ({ f with tiers := f.tiers ++ [t]
                    tiers_dict := f.tiers_dict.set t.tier_id t
                    annotations_dict :=
                      t.annotations.foldl (fun d a => d.set a.get_annotation_id a)
                        f.annotations_dict },
           store)
    else if ctag = "LINGUISTIC_TYPE" then do
      let lt ← ELANLinguisticType.from_xml (.element ctag cattrs cchildren)
      .ok ({ f with linguistic_types := f.linguistic_types ++ [lt]
                    linguistic_types_dict :=
                      f.linguistic_types_dict.set lt.linguistic_type_id lt },
           store)
    else if ctag = "CONSTRAINT" then do
      let c ← ELANConstraint.from_xml (.element ctag cattrs cchildren)
      .ok ({ f with constraints := f.constraints ++ [c]
                    constraints_dict := f.constraints_dict.set c.stereotype c },
           store)
    else if ctag = "CONTROLLED_VOCABULARY" then do
      let cvs ← ELANControlledVocabulary.from_xml (.element ctag cattrs cchildren) store
      .ok ({ f with controlled_vocabularies := f.controlled_vocabularies ++ [cvs.1]
                    controlled_vocabularies_dict :=
                      f.controlled_vocabularies_dict.set cvs.1.cv_id cvs.1 },
           cvs.2)
    else if ctag = "EXTERNAL_REF" then do
      let er ← ELANExternalReference.from_xml (.element ctag cattrs cchildren)
      .ok ({ f with external_references := f.external_references ++ [er]
                    external_references_dict :=
                      f.external_references_dict.set er.ext_ref_id er },
           store)
    else if ctag = "LOCALE" then do
      let l ← ELANLocale.from_xml (.element ctag cattrs cchildren)
      .ok ({ f with locales := f.locales ++ [l] }, store)
    else if ctag = "LEXICON_REF" then do
      let lr ← ELANLexiconReference.from_xml (.element ctag cattrs cchildren)
      .ok ({ f with lexicon_references := f.lexicon_references ++ [lr]
                    lexicon_references_dict :=
                      f.lexicon_references_dict.set lr.lex_ref_id lr },
           store)
    else
      .error (.runtime ("Unknown XML node: " ++ ctag))

/-- `ELANFile.parse_xml`: takes the root element of the parsed tree (the
`firstChild` of the minidom document), the file name, and the class-level
controlled-vocabulary storage as it stands before the call (the source's own
TODO notes that this state is not re-initialized). The root's `AUTHOR`,
`DATE`, `FORMAT` and `VERSION` attributes are each read only when present —
no error is raised for a missing one — and the children are folded in
document order. -/
def ELANFile.parse_xml (root : XmlNode) (file_name : String) (store : CVStore) :
    Except PyError (ELANFile × CVStore) :=
  match root with
  | .text _ =>
    .error (.runtime "XML document does not have the correct type ANNOTATION_DOCUMENT.")
  | .element tag attrs children =>
    if tag ≠ "ANNOTATION_DOCUMENT" then
      .error (.runtime "XML document does not have the correct type ANNOTATION_DOCUMENT.")
    else
      children.foldlM ELANFile.parseDocChild
        ({ ELANFile.empty with
           url := some file_name
           author := attrs.get? "AUTHOR"
           date := attrs.get? "DATE"
           format := attrs.get? "FORMAT"
           version := attrs.get? "VERSION" }, store)

/-- `escape(...)` applied to a possibly-`None` accessor result: Python's
`escape(None)` raises `AttributeError` (`None` has no `replace`). -/
def escapeOpt : Option String → Except PyError String
  | some s => .ok (escape s)
  | none => .error (.attributeError "NoneType object has no attribute replace")

/-- `ELANFile.to_xml`: builds the output text in the source's append order:
XML declaration; `ANNOTATION_DOCUMENT` with `DATE`, `AUTHOR`, `VERSION`,
`FORMAT` (default `"2.7"`); `HEADER` with `MEDIA_FILE=""` and `TIME_UNITS`
(default `"milliseconds"`), containing media descriptors, linked-file
descriptors and properties; the `TIME_ORDER`; then tiers, linguistic types,
locales, constraints, controlled vocabularies, lexicon references and
external references, each group in list order. A missing required metadatum
or time order raises `AttributeError`, and any linked-file descriptor raises
through `ELANLinkedFileDescriptor.to_xml`. The source ends by re-parsing the
built text through the external XML layer purely as a well-formedness
self-check and returns the same string unchanged when that check passes. -/
def ELANFile.to_xml (f : ELANFile) (store : CVStore) (indent : String) :
    Except PyError String := do
  let date ← escapeOpt f.date
  let author ← escapeOpt f.author
  let version ← escapeOpt f.version
  let linkedParts ← f.linked_files.mapM (fun lf => lf.to_xml indent)
  let timeOrderPart ←
    match f.time_order with
    | some to_ => Except.ok (to_.to_xml indent)
    | none => Except.error (.attributeError "NoneType object has no attribute to_xml")
  .ok ("<?xml version=\"1.0\" encoding=\"UTF-8\"?>\n" ++
    "<ANNOTATION_DOCUMENT" ++
    " DATE=\"" ++ date ++ "\"" ++
    " AUTHOR=\"" ++ author ++ "\"" ++
    " VERSION=\"" ++ version ++ "\"" ++
    " FORMAT=\"" ++ (match f.format with | some x => escape x | none => "2.7") ++ "\"" ++
    ">\n" ++
    indent ++ "<HEADER" ++ " MEDIA_FILE=\"\"" ++
    " TIME_UNITS=\"" ++ (match f.time_units with | some x => escape x | none => "milliseconds") ++ "\"" ++
    ">\n" ++
    String.join (f.media_files.map (fun md => md.to_xml indent)) ++
    String.join linkedParts ++
    String.join (f.properties.map (fun kv =>
      indent ++ indent ++ "<PROPERTY NAME=\"" ++ escape kv.1 ++ "\">" ++
        escape kv.2 ++ "</PROPERTY>\n")) ++
    indent ++ "</HEADER>\n" ++
    timeOrderPart ++
    String.join (f.tiers.map (fun t => t.to_xml indent)) ++
    String.join (f.linguistic_types.map (fun lt => lt.to_xml indent)) ++
    String.join (f.locales.map (fun l => l.to_xml indent)) ++
    String.join (f.constraints.map (fun c => c.to_xml indent)) ++
    String.join (f.controlled_vocabularies.map (fun cv => cv.to_xml store indent)) ++
    String.join (f.lexicon_references.map (fun lr => lr.to_xml indent)) ++
    String.join (f.external_references.map (fun er => er.to_xml indent)) ++
    "</ANNOTATION_DOCUMENT>\n")

/-! ## Specification-side layout (for the output-order claim)

`specDocumentLayout` is written from the specification's words, not from the
source: "Document element order on output: HEADER (media descriptors, then
linked-file descriptors, then properties, in insertion order), TIME_ORDER,
TIER*, LINGUISTIC_TYPE*, LOCALE*, CONSTRAINT*, CONTROLLED_VOCABULARY*,
LEXICON_REF*, EXTERNAL_REF*", to be compared with `ELANFile.to_xml`. -/

/-- The root element opening with its metadata attributes. -/
def specDocOpen (f : ELANFile) : Except PyError String := do
  let date ← escapeOpt f.date
  let author ← escapeOpt f.author
  let version ← escapeOpt f.version
  .ok ("<?xml version=\"1.0\" encoding=\"UTF-8\"?>\n" ++ "<ANNOTATION_DOCUMENT" ++
    " DATE=\"" ++ date ++ "\"" ++ " AUTHOR=\"" ++ author ++ "\"" ++
    " VERSION=\"" ++ version ++ "\"" ++
    " FORMAT=\"" ++ (match f.format with | some x => escape x | none => "2.7") ++ "\"" ++ ">\n")

/-- The HEADER: media descriptors, then linked-file descriptors, then
properties, each sub-sequence in insertion order. -/
def specHeaderSection (f : ELANFile) (indent : String) : Except PyError String := do
  let linked ← f.linked_files.mapM (fun lf => lf.to_xml indent)
  .ok (indent ++ "<HEADER" ++ " MEDIA_FILE=\"\"" ++
    " TIME_UNITS=\"" ++ (match f.time_units with | some x => escape x | none => "milliseconds") ++ "\"" ++ ">\n" ++
    String.join (f.media_files.map (fun md => md.to_xml indent)) ++
    String.join linked ++
    String.join (f.properties.map (fun kv =>
      indent ++ indent ++ "<PROPERTY NAME=\"" ++ escape kv.1 ++ "\">" ++
        escape kv.2 ++ "</PROPERTY>\n")) ++
    indent ++ "</HEADER>\n")

/-- The TIME_ORDER section. -/
def specTimeOrderSection (f : ELANFile) (indent : String) : Except PyError String :=
  match f.time_order with
  | some to_ => .ok (to_.to_xml indent)
  | none => .error (.attributeError "NoneType object has no attribute to_xml")

/-- The whole document layout the specification prescribes: HEADER,
TIME_ORDER, then all tiers, linguistic types, locales, constraints,
controlled vocabularies, lexicon references and external references, each
group in insertion order and never reordered. -/
def specDocumentLayout (f : ELANFile) (store : CVStore) (indent : String) :
    Except PyError String := do
  let opening ← specDocOpen f
  let header ← specHeaderSection f indent
  let timeOrder ← specTimeOrderSection f indent
  .ok (opening ++ header ++ timeOrder ++
    String.join (f.tiers.map (fun t => t.to_xml indent)) ++
    String.join (f.linguistic_types.map (fun lt => lt.to_xml indent)) ++
    String.join (f.locales.map (fun l => l.to_xml indent)) ++
    String.join (f.constraints.map (fun c => c.to_xml indent)) ++
    String.join (f.controlled_vocabularies.map (fun cv => cv.to_xml store indent)) ++
    String.join (f.lexicon_references.map (fun lr => lr.to_xml indent)) ++
    String.join (f.external_references.map (fun er => er.to_xml indent)) ++
    "</ANNOTATION_DOCUMENT>\n")

/-! ## Helper: last annotation carrying a given identifier -/

/-- The last annotation in a list whose identifier is the given one — the
annotation that plain dict assignment in registration order leaves in the
flat index. -/
def lastAnnotationWithId : List ELANAnnotation → String → Option ELANAnnotation
  | [], _ => none
  | a :: rest, id_ =>
    match lastAnnotationWithId rest id_ with
    | some b => some b
    | none => if a.get_annotation_id = id_ then some a else none

/-! ## Concrete instances used by the claim theorems -/

/-- A minimal document whose `time_units` is set (as the parser's own default
branch sets it): author, date, version, format present, an empty time order,
nothing else. -/
def roundTripDoc : ELANFile :=
  { ELANFile.empty with
    author := some "A"
    date := some "2016-06-01"
    version := some "2.7"
    format := some "2.7"
    time_units := some "milliseconds"
    time_order := some ELANTimeOrder.empty }

/-- The exact text `ELANFile.to_xml` produces for `roundTripDoc`. -/
def roundTripXml : String :=
  "<?xml version=\"1.0\" encoding=\"UTF-8\"?>\n<ANNOTATION_DOCUMENT DATE=\"2016-06-01\" AUTHOR=\"A\" VERSION=\"2.7\" FORMAT=\"2.7\">\n    <HEADER MEDIA_FILE=\"\" TIME_UNITS=\"milliseconds\">\n    </HEADER>\n    <TIME_ORDER>\n    </TIME_ORDER>\n</ANNOTATION_DOCUMENT>\n"

/-- The element tree the external XML layer (minidom) yields for
`roundTripXml`: the root element with its four attributes, whitespace text
nodes, the `HEADER` element (attributes `MEDIA_FILE=""` and
`TIME_UNITS="milliseconds"`), and the empty `TIME_ORDER` element. -/
def roundTripTree : XmlNode :=
  .element "ANNOTATION_DOCUMENT"
    [("DATE", "2016-06-01"), ("AUTHOR", "A"), ("VERSION", "2.7"), ("FORMAT", "2.7")]
    [.text "\n    ",
     .element "HEADER" [("MEDIA_FILE", ""), ("TIME_UNITS", "milliseconds")] [.text "\n    "],
     .text "\n    ",
     .element "TIME_ORDER" [] [.text "\n    "],
     .text "\n"]

/-- A reference annotation with identifier `a1` and value `old`. -/
def c2OldAnn : ELANAnnotation := .ref ⟨"a1", "old", "a0", none, none⟩

/-- A different annotation carrying the same identifier `a1`. -/
def c2NewAnn : ELANAnnotation := .ref ⟨"a1", "new", "a0", none, none⟩

/-- A tier already holding `c2OldAnn`. -/
def c2Tier1 : ELANTier := ⟨"T1", none, none, "default", none, none, [c2OldAnn], PyDict.empty⟩

/-- A second tier holding `c2NewAnn`, whose identifier duplicates `c2OldAnn`'s. -/
def c2Tier2 : ELANTier := ⟨"T2", none, none, "default", none, none, [c2NewAnn], PyDict.empty⟩

/-- A document owning `c2Tier1`, with `a1` in its flat annotation index. -/
def c2File : ELANFile :=
  { ELANFile.empty with
    tiers := [c2Tier1]
    tiers_dict := [("T1", c2Tier1)]
    annotations_dict := [("a1", c2OldAnn)] }

/-- A linguistic type whose constraint is the `Time_Subdivision` stereotype. -/
def c4TimeSub : ELANLinguisticType :=
  ⟨"lt1", some true, some "Time_Subdivision", none, none, none, none⟩

/-- A linguistic type whose constraint is the `Symbolic_Subdivision` stereotype. -/
def c4SymSub : ELANLinguisticType :=
  ⟨"lt2", some false, some "Symbolic_Subdivision", none, none, none, none⟩

/-- A controlled vocabulary without an external reference. -/
def c5Vocab : ELANControlledVocabulary := ⟨"cv1", none, none⟩

/-- An entry with value `yes` already present in `c5Store`. -/
def c5Entry : ELANControlledVocabularyEntry := ⟨"yes", "cv1", none, none⟩

/-- A second, distinct entry carrying the already-present value `yes`. -/
def c5Dup : ELANControlledVocabularyEntry := ⟨"yes", "cv1", some "again", none⟩

/-- Entry storage already holding (and indexing) `c5Entry`. -/
def c5Store : CVStore := ⟨[c5Entry], [("yes", c5Entry)]⟩

/-- A time slot with no concrete time value (an unanchored reference point). -/
def c6Slot : ELANTimeSlot := ⟨"ts1", none⟩

/-- A time order holding only `c6Slot`. -/
def c6Order : ELANTimeOrder := ⟨[c6Slot], [("ts1", c6Slot)]⟩

/-- A document whose time order is `c6Order`. -/
def c6File : ELANFile :=
  { ELANFile.empty with
    time_order := some c6Order
    time_slots_dict := [("ts1", c6Slot)] }

/-- An alignable annotation whose start slot is the unanchored `ts1` and
whose end slot identifier `ts9` is absent from the time order. -/
def c6Ann : AlignableData := ⟨"a1", "hello", "ts1", "ts9", none, none⟩

/-- A reference annotation whose external reference is set to `er1`. -/
def c8RefWithExt : RefData := ⟨"a2", "x", "a1", none, some "er1"⟩

/-- The exact text `ELANRefAnnotation.to_xml` emits for `c8RefWithExt`, with
the external reference in an `EXT_REF` attribute. -/
def c8RefString : String :=
  "        <ANNOTATION>\n            <REF_ANNOTATION ANNOTATION_ID=\"a2\" ANNOTATION_REF=\"a1\" EXT_REF=\"er1\">\n                <ANNOTATION_VALUE>x</ANNOTATION_VALUE>\n            </REF_ANNOTATION>\n        </ANNOTATION>\n"

/-- The element tree minidom yields for the `REF_ANNOTATION` element inside
`c8RefString`: the `EXT_REF="er1"` attribute and the `ANNOTATION_VALUE`
child between whitespace text nodes. -/
def c8RefTree : XmlNode :=
  .element "REF_ANNOTATION"
    [("ANNOTATION_ID", "a2"), ("ANNOTATION_REF", "a1"), ("EXT_REF", "er1")]
    [.text "\n                ",
     .element "ANNOTATION_VALUE" [] [.text "x"],
     .text "\n            "]

/-- An `ALIGNABLE_ANNOTATION` element carrying the optional `EXT_REF`
attribute of the wire grammar. -/
def c8AlignTree : XmlNode :=
  .element "ALIGNABLE_ANNOTATION"
    [("ANNOTATION_ID", "a1"), ("TIME_SLOT_REF1", "ts1"),
     ("TIME_SLOT_REF2", "ts2"), ("EXT_REF", "er1")]
    [.element "ANNOTATION_VALUE" [] [.text "hello"]]

/-- A first controlled vocabulary. -/
def c10V1 : ELANControlledVocabulary := ⟨"cv1", none, none⟩

/-- A second, distinct controlled vocabulary constructed independently. -/
def c10V2 : ELANControlledVocabulary := ⟨"cv2", none, none⟩

/-- An entry added to the first vocabulary only. -/
def c10Entry : ELANControlledVocabularyEntry := ⟨"x", "cv1", none, none⟩

/-- The class-level storage after adding `c10Entry` through `c10V1`. -/
def c10StoreAfter : CVStore := ⟨[c10Entry], [("x", c10Entry)]⟩

/-! ## Lemmas about `PyDict` -/

/-- Assigning a key and then looking it up yields the assigned value. -/
theorem PyDict.get_set_same {α : Type} (d : PyDict α) (k : String) (v : α) :
    (d.set k v).get? k = some v := by
  induction d with
  | nil => simp [PyDict.set, PyDict.get?]
  | cons kv rest ih =>
    obtain ⟨k1, w⟩ := kv
    by_cases h : k1 = k
    · simp [PyDict.set, PyDict.get?, h]
    · simp [PyDict.set, PyDict.get?, h, ih]

/-- Assigning one key leaves every other key's lookup unchanged. -/
theorem PyDict.get_set_other {α : Type} (d : PyDict α) (k k' : String) (v : α)
    (h : k ≠ k') : (d.set k v).get? k' = d.get? k' := by
  induction d with
  | nil => simp [PyDict.set, PyDict.get?, h]
  | cons kv rest ih =>
    obtain ⟨k1, w⟩ := kv
    by_cases h1 : k1 = k
    · subst h1
      simp [PyDict.set, PyDict.get?, h]
    · simp [PyDict.set, PyDict.get?, h1, ih]

/-- Registering a list of annotations by plain dict assignment leaves, for
each identifier, the last annotation of the list that carries it, and keeps
the previous binding for identifiers the list does not mention. -/
theorem annotations_foldl_set (l : List ELANAnnotation) (d : PyDict ELANAnnotation)
    (id_ : String) :
    (l.foldl (fun d a => d.set a.get_annotation_id a) d).get? id_ =
      match lastAnnotationWithId l id_ with
      | some b => some b
      | none => d.get? id_ := by
  induction l generalizing d with
  | nil => rfl
  | cons a rest ih =>
    simp only [List.foldl_cons, lastAnnotationWithId]
    rw [ih]
    cases h : lastAnnotationWithId rest id_ with
    | some b => rfl
    | none =>
      by_cases hid : a.get_annotation_id = id_
      · simp [hid, PyDict.get_set_same]
      · simp [hid, PyDict.get_set_other _ _ _ _ hid]

/-! ## Claim theorems -/

set_option maxRecDepth 100000 in
/-- C1: the claim states that decoding the XML produced by encoding any
non-empty document yields a structurally equal document, metadata (author,
date, format, version, time-units) included. The code violates it:
`parse_xml` assigns the `TIME_UNITS` attribute value to `media_file`, so
re-decoding `roundTripDoc`'s own output (whose header always carries a
`TIME_UNITS` attribute) yields `time_units = none` while the original
document has `time_units = some "milliseconds"` — the round trip is not
structurally equal. `roundTripTree` is the element tree the external XML
layer yields for the emitted text `roundTripXml`. -/
theorem c1_roundtrip_drops_time_units :
    ELANFile.to_xml roundTripDoc CVStore.empty "    " = .ok roundTripXml
    ∧ (ELANFile.parse_xml roundTripTree "roundtrip.eaf" CVStore.empty).map
        (fun p => (p.1.author, p.1.date, p.1.version, p.1.format,
                   p.1.time_units, p.1.media_file))
      = .ok (some "A", some "2016-06-01", some "2.7", some "2.7", none, some "milliseconds")
    ∧ roundTripDoc.time_units = some "milliseconds" :=
  ⟨by decide, rfl, rfl⟩

/-- C2 counterexample: adding `c2Tier2`, which carries a second annotation
with the already-present identifier `a1`, does not fail with any DuplicateID
error — `add_tier` returns the updated document and silently remaps the flat
index entry `a1` to the new annotation; `ELANTier.add_annotation` likewise
appends a duplicate without any check. This falsifies the claim as stated. -/
theorem c2_duplicate_id_overwrites :
    (c2File.add_tier c2Tier2).tiers = [c2Tier1, c2Tier2]
    ∧ (c2File.add_tier c2Tier2).annotations_dict.get? "a1" = some c2NewAnn
    ∧ c2NewAnn ≠ c2OldAnn
    ∧ (c2Tier1.add_annotation c2NewAnn).annotations = [c2OldAnn, c2NewAnn] :=
  ⟨rfl, rfl, by decide, rfl⟩

/-- C2 amended: adding an annotation whose identifier already occurs in the
document never fails. `ELANTier.add_annotation` appends unconditionally and
touches no index; `ELANFile.add_tier` appends the tier and overwrites the
flat annotation index entry for every identifier the tier carries (the last
annotation with that identifier wins), leaving entries for other identifiers
unchanged. -/
theorem c2_add_never_fails_overwrites_index (t : ELANTier) (a : ELANAnnotation)
    (f : ELANFile) (id_ : String) :
    (t.add_annotation a).annotations = t.annotations ++ [a]
    ∧ (t.add_annotation a).annotations_dict = t.annotations_dict
    ∧ (f.add_tier t).tiers = f.tiers ++ [t]
    ∧ (f.add_tier t).annotations_dict.get? id_ =
        (match lastAnnotationWithId t.annotations id_ with
         | some b => some b
         | none => f.annotations_dict.get? id_) :=
  ⟨rfl, rfl, rfl, annotations_foldl_set t.annotations f.annotations_dict id_⟩

/-- C3: for concrete values `<`, `>`, `<=`, `>=` agree with the value order,
and a comparison against an absent value raises `TypeError` for `<` and `>`
— but for two slots whose values are **both** absent, `<=` and `>=` silently
return `True` (the `==` short-circuit in `__le__`/`__ge__`), contradicting
the claim that every ordering comparison on absent values is rejected. -/
theorem c3_comparisons_on_absent_values :
    (∀ x y : Int,
      ELANTimeSlot.lt ⟨"t1", some x⟩ ⟨"t2", some y⟩ = .ok (decide (x < y))
      ∧ ELANTimeSlot.gt ⟨"t1", some x⟩ ⟨"t2", some y⟩ = .ok (decide (y < x))
      ∧ ELANTimeSlot.le ⟨"t1", some x⟩ ⟨"t2", some y⟩ = .ok (decide (x ≤ y))
      ∧ ELANTimeSlot.ge ⟨"t1", some x⟩ ⟨"t2", some y⟩ = .ok (decide (y ≤ x)))
    ∧ ELANTimeSlot.lt ⟨"t1", none⟩ ⟨"t2", none⟩
        = .error (.typeError "unorderable types: NoneType and int")
    ∧ ELANTimeSlot.gt ⟨"t1", none⟩ ⟨"t2", none⟩
        = .error (.typeError "unorderable types: NoneType and int")
    ∧ ELANTimeSlot.le ⟨"t1", none⟩ ⟨"t2", none⟩ = .ok true
    ∧ ELANTimeSlot.ge ⟨"t1", none⟩ ⟨"t2", none⟩ = .ok true := by
  refine ⟨fun x y => ⟨rfl, rfl, ?_, ?_⟩, rfl, rfl, rfl, rfl⟩
  · by_cases h : x = y
    · subst h
      simp [ELANTimeSlot.le]
    · have hiff : (x < y) ↔ (x ≤ y) := by omega
      simp [ELANTimeSlot.le, h, hiff]
  · by_cases h : x = y
    · subst h
      simp [ELANTimeSlot.ge]
    · have hiff : (y < x) ↔ (y ≤ x) := by omega
      simp [ELANTimeSlot.ge, h, hiff]

/-- C4: `set_time_alignable` contradicts the stereotype table the class's own
constructor (and `ELANConstraint.is_time_alignable`) implements: `true` is
rejected for `Time_Subdivision` (the source compares against the misspelling
`"Time_Subdivison"`), `false` is rejected for `Symbolic_Subdivision` even
though the table makes that stereotype non-alignable, and `false` is accepted
for `Time_Subdivision` even though the table makes it alignable; `true` with
`Included_In` behaves as the table says. -/
theorem c4_set_time_alignable_contradicts_table :
    ELANLinguisticType.set_time_alignable c4TimeSub true
      = .error (.runtime "Constraint Time_Subdivision is not time alignable.")
    ∧ ELANLinguisticType.set_time_alignable c4SymSub false
      = .error (.runtime "Constraint Symbolic_Subdivision is time alignable.")
    ∧ ELANLinguisticType.set_time_alignable c4TimeSub false
      = .ok { c4TimeSub with time_alignable := some false }
    ∧ ELANLinguisticType.set_time_alignable
        ⟨"lt3", some true, some "Included_In", none, none, none, none⟩ true
      = .ok ⟨"lt3", some true, some "Included_In", none, none, none, none⟩
    ∧ ELANConstraint.is_time_alignable ⟨"Time_Subdivision", none⟩ = some true
    ∧ ELANConstraint.is_time_alignable ⟨"Symbolic_Subdivision", none⟩ = some false :=
  ⟨rfl, rfl, rfl, rfl, rfl, rfl⟩

/-- C5 counterexample: with no external reference and the value `yes` already
present, `add_cv_entry` succeeds and leaves the storage unchanged — no
DuplicateValue error is raised, falsifying the claim's middle branch. -/
theorem c5_duplicate_silently_ignored :
    (c5Store.cv_entries_dict.get? c5Dup.value).isSome = true
    ∧ ELANControlledVocabulary.add_cv_entry c5Vocab c5Dup c5Store = .ok c5Store
    ∧ c5Dup ≠ c5Entry :=
  ⟨rfl, rfl, by decide⟩

/-- C5 amended: `add_cv_entry` on a vocabulary carrying an external reference
always fails with the external-vocabulary error and never mutates the entry
storage; without an external reference, an entry whose value is already
present is silently skipped (no error, storage unchanged), and a fresh value
is appended to the ordered entry list and indexed by its value, leaving other
values' lookups unchanged. -/
theorem c5_add_cv_entry_contract (cv : ELANControlledVocabulary)
    (e : ELANControlledVocabularyEntry) (store : CVStore) :
    (∀ x, cv.ext_ref = some x →
      cv.add_cv_entry e store =
        .error (.runtime "Cannot add entries to a controlled vocabulary pointing to an external reference."))
    ∧ (cv.ext_ref = none → (store.cv_entries_dict.get? e.value).isSome →
        cv.add_cv_entry e store = .ok store)
    ∧ (cv.ext_ref = none → store.cv_entries_dict.get? e.value = none →
        ∃ store', cv.add_cv_entry e store = .ok store'
          ∧ store'.cv_entries = store.cv_entries ++ [e]
          ∧ store'.cv_entries_dict.get? e.value = some e
          ∧ ∀ v, v ≠ e.value →
              store'.cv_entries_dict.get? v = store.cv_entries_dict.get? v) := by
  refine ⟨?_, ?_, ?_⟩
  · intro x hx
    simp [ELANControlledVocabulary.add_cv_entry, hx]
  · intro hn hdup
    simp [ELANControlledVocabulary.add_cv_entry, hn, hdup]
  · intro hn hnone
    refine ⟨⟨store.cv_entries ++ [e], store.cv_entries_dict.set e.value e⟩,
      ?_, rfl, PyDict.get_set_same _ _ _, ?_⟩
    · simp [ELANControlledVocabulary.add_cv_entry, hn, hnone]
    · intro v hv
      exact PyDict.get_set_other _ _ _ _ (fun hh => hv hh.symm)

/-- C5 witness: the contract applied to a vocabulary with an external
reference (always fails) and to `c5Vocab` with the duplicate `c5Dup`
(silently skipped). -/
theorem c5_add_cv_entry_contract_witness :
    ELANControlledVocabulary.add_cv_entry ⟨"cv9", none, some "erx"⟩ c5Dup c5Store
      = .error (.runtime "Cannot add entries to a controlled vocabulary pointing to an external reference.")
    ∧ ELANControlledVocabulary.add_cv_entry c5Vocab c5Dup c5Store = .ok c5Store :=
  ⟨(c5_add_cv_entry_contract ⟨"cv9", none, some "erx"⟩ c5Dup c5Store).1 "erx" rfl,
   (c5_add_cv_entry_contract c5Vocab c5Dup c5Store).2.1 rfl rfl⟩

/-- C6 counterexample: `get_start_time` on an annotation whose start slot
exists but carries no value returns the absent value (`.ok none`) instead of
failing with a value-not-anchored error, falsifying the claim's second
branch. -/
theorem c6_unanchored_value_returned :
    c6Slot.has_time_value = false
    ∧ ELANAlignableAnnotation.get_start_time c6Ann c6File = .ok none :=
  ⟨rfl, rfl⟩

/-- C6 amended: each call of `get_start_time`/`get_end_time` resolves the
slot identifier through the document's TimeOrder at that call; it fails with
`KeyError` ("UnresolvedReference") when the identifier is absent, and when
the slot exists it returns the slot's raw time value — which may be absent —
without any value-not-anchored error. -/
theorem c6_time_resolution_contract (f : ELANFile) (a : AlignableData)
    (to_ : ELANTimeOrder) (h : f.time_order = some to_) :
    (to_.time_slots_dict.get? a.start_time_slot = none →
      ELANAlignableAnnotation.get_start_time a f
        = .error (.keyError "No ELANTimeSlot with the given ID found."))
    ∧ (∀ ts, to_.time_slots_dict.get? a.start_time_slot = some ts →
        ELANAlignableAnnotation.get_start_time a f = .ok ts.time_value)
    ∧ (to_.time_slots_dict.get? a.end_time_slot = none →
        ELANAlignableAnnotation.get_end_time a f
          = .error (.keyError "No ELANTimeSlot with the given ID found."))
    ∧ (∀ ts, to_.time_slots_dict.get? a.end_time_slot = some ts →
        ELANAlignableAnnotation.get_end_time a f = .ok ts.time_value) := by
  refine ⟨?_, ?_, ?_, ?_⟩
  · intro hn
    simp [ ELANAlignableAnnotation.get_start_time, h,
      ELANTimeOrder.get_time_slot_by_id, hn, bind, Except.bind]
  · intro ts hs
    simp [ ELANAlignableAnnotation.get_start_time, h,
      ELANTimeOrder.get_time_slot_by_id, hs, ELANTimeSlot.get_time_value,
      bind, Except.bind]
  · intro hn
    simp [ ELANAlignableAnnotation.get_end_time, h,
      ELANTimeOrder.get_time_slot_by_id, hn, bind, Except.bind]
  · intro ts hs
    simp [ ELANAlignableAnnotation.get_end_time, h,
      ELANTimeOrder.get_time_slot_by_id, hs, ELANTimeSlot.get_time_value,
      bind, Except.bind]

/-- C6 witness: the contract applied to `c6Ann` in `c6File`, whose end-slot
identifier `ts9` is absent from the time order. -/
theorem c6_time_resolution_contract_witness :
    ELANAlignableAnnotation.get_end_time c6Ann c6File
      = .error (.keyError "No ELANTimeSlot with the given ID found.") :=
  (c6_time_resolution_contract c6File c6Ann c6Order rfl).2.2.1 rfl

/-- C7 counterexample: decoding a root `ANNOTATION_DOCUMENT` element with no
attributes at all — `AUTHOR`, `DATE` and `VERSION` all missing — succeeds and
returns a document whose metadata fields are all absent, falsifying the
claimed MissingAttribute failure. -/
theorem c7_missing_root_attributes_accepted :
    ELANFile.parse_xml (.element "ANNOTATION_DOCUMENT" [] []) "empty.eaf" CVStore.empty
      = .ok ({ ELANFile.empty with url := some "empty.eaf" }, CVStore.empty) :=
  rfl

/-- C7 amended: `parse_xml` reads each of the root's `AUTHOR`, `DATE`,
`FORMAT` and `VERSION` attributes only when present and never raises for a
missing one: for any attribute set, decoding a childless root yields a
document whose metadata is exactly the attribute lookups (absent attribute →
absent field). -/
theorem c7_root_attributes_optional (attrs : PyDict String) (fn : String)
    (store : CVStore) :
    ELANFile.parse_xml (.element "ANNOTATION_DOCUMENT" attrs []) fn store
      = .ok ({ ELANFile.empty with
               url := some fn
               author := attrs.get? "AUTHOR"
               date := attrs.get? "DATE"
               format := attrs.get? "FORMAT"
               version := attrs.get? "VERSION" }, store) :=
  rfl

set_option maxRecDepth 100000 in
/-- C8: the encoder emits the external reference as an `EXT_REF` attribute
(`c8RefString`), but both `from_xml` readers look only for an attribute named
`EXTERNAL_REF`, so decoding an element carrying the grammar's `EXT_REF` —
including the decoder's own output — yields an annotation with **no**
external reference (`has_external_ref` is false), contradicting the claim.
`c8RefTree` is the element tree of the `REF_ANNOTATION` inside
`c8RefString`. -/
theorem c8_ext_ref_attribute_mismatch :
    RefData.to_xml c8RefWithExt "    " = c8RefString
    ∧ ELANRefAnnotation.from_xml c8RefTree = .ok ⟨"a2", "x", "a1", none, none⟩
    ∧ ELANAlignableAnnotation.from_xml c8AlignTree
        = .ok ⟨"a1", "hello", "ts1", "ts2", none, none⟩
    ∧ ELANAnnotation.has_external_ref (.ref ⟨"a2", "x", "a1", none, none⟩) = false :=
  ⟨by decide, rfl, rfl, rfl⟩

/-- C9: for every document, shared vocabulary storage and indentation, the
text `ELANFile.to_xml` builds equals the layout the specification prescribes
(`specDocumentLayout`): HEADER with media descriptors, then linked-file
descriptors, then properties, each in insertion order; then the TIME_ORDER;
then all tiers, linguistic types, locales, constraints, controlled
vocabularies, lexicon references and external references, each group in
insertion order and never reordered. -/
theorem c9_document_output_order (f : ELANFile) (store : CVStore) (indent : String) :
    ELANFile.to_xml f store indent = specDocumentLayout f store indent := by
  unfold ELANFile.to_xml specDocumentLayout specDocOpen specHeaderSection specTimeOrderSection
  cases f.date <;> cases f.author <;> cases f.version <;>
    simp only [escapeOpt, bind, Except.bind]
  cases hmap : f.linked_files.mapM (fun lf => ELANLinkedFileDescriptor.to_xml lf indent) <;>
    simp only [hmap, Except.bind]
  cases f.time_order <;> simp [Except.bind, String.append_assoc]

/-- C10: the claim states that distinct, independently constructed controlled
vocabularies own fresh per-instance entry storage. The code violates it:
`__init__` never re-initializes the class-level `cv_entries`/
`cv_entries_dict`, so adding `c10Entry` through `c10V1` is observed through
the distinct instance `c10V2` — its entry count goes from 0 to 1 and its
lookup by value finds the entry added to `c10V1`. -/
theorem c10_shared_entry_storage :
    c10V1 ≠ c10V2
    ∧ ELANControlledVocabulary.entry_count c10V2 CVStore.empty = 0
    ∧ ELANControlledVocabulary.add_cv_entry c10V1 c10Entry CVStore.empty = .ok c10StoreAfter
    ∧ ELANControlledVocabulary.entry_count c10V2 c10StoreAfter = 1
    ∧ ELANControlledVocabulary.get_cv_entry_by_value c10V2 c10StoreAfter "x" = some c10Entry :=
  ⟨by decide, rfl, rfl, rfl, rfl⟩

end Elan
